import Mathlib

/-!
Shallow embedding of the concurrent link-analysis engine of the
`web-page-analyzer` repository (Go), for checking its specification.

Embedded source files:
* `src/analyzer/link_analysis.go` — `processLinkParallel`,
  `calculateOptimalWorkers`, the deadline computation, and the
  result-collection fold of `analyzeLinksConcurrent`;
* `src/analyzer/link_utils.go` — `LinkProcessor.ProcessLink`,
  `IsSpecialProtocol`;
* `src/analyzer/analyzer.go` — `analyzeSingleLink` and the
  result-collection fold of its `analyzeLinksConcurrent` variant;
* `src/unnamed/part_003` — `isLinkAccessible` (the HEAD-probe variant
  using `IsSpecialProtocol` and the `200 <= status < 400` rule).

The parts of Go's standard `net/url` package that the code calls
(`url.Parse`, `URL.IsAbs`, `URL.ResolveReference`, `URL.Hostname`,
`URL.String`) are modelled below to the extent the analyzer exercises
them: scheme splitting, fragment/query splitting, authority/opaque/path
classification, relative-reference resolution with dot-segment removal,
and port stripping.  Percent-escaping, userinfo, IPv6 bracket hosts and
the rarer parse-error cases of `net/url` are not modelled; the only
modelled parse failure is an ASCII control character in the URL, which
is a genuine `net/url` error ("invalid control character in URL") and
keeps the error path of the analyzer reachable.

Network I/O is modelled by passing the network's behaviour as an
explicit function argument (the Go code likewise receives the prober as
a function value in `ProcessLink`, and `analyzeSingleLink` calls the
method `a.isLinkAccessible` whose outcome depends on the network).
Goroutine scheduling is modelled by quantifying over the order in which
per-link outcomes reach the collection loop.
-/

namespace WebAnalyzer

/-- Models Go `strings.HasPrefix s pre`. -/
def hasPrefix (s pre : String) : Bool :=
  pre.data.isPrefixOf s.data

/-- Models Go `strings.TrimSpace` (ASCII whitespace suffices here). -/
def trimSpace (s : String) : String :=
  ⟨((s.data.dropWhile Char.isWhitespace).reverse.dropWhile Char.isWhitespace).reverse⟩

/-- Split a character list at the first occurrence of `c`, cutting `c`
itself (Go's internal `split(s, c, true)`); `none` when `c` is absent. -/
def splitFirstAux (c : Char) : List Char → List Char → List Char × Option (List Char)
  | [], acc => (acc.reverse, none)
  | x :: rest, acc =>
    if x = c then (acc.reverse, some rest) else splitFirstAux c rest (x :: acc)

def splitFirst (s : String) (c : Char) : String × Option String :=
  match splitFirstAux c s.data [] with
  | (before, none) => (⟨before⟩, none)
  | (before, some after) => (⟨before⟩, some ⟨after⟩)

/-- Scheme splitting, modelling `net/url`'s `getScheme`: a scheme is a
letter followed by letters, digits, `+`, `-`, `.`, terminated by `:`.
Returns `some (scheme, rest)` or `none` when no scheme prefix exists. -/
def schemeSplitAux : List Char → List Char → Option (String × String)
  | [], _ => none
  | c :: rest, acc =>
    if c = ':' then
      if acc.isEmpty then none else some (⟨acc.reverse⟩, ⟨rest⟩)
    else if c.isAlpha || (!acc.isEmpty && (c.isDigit || c = '+' || c = '-' || c = '.')) then
      schemeSplitAux rest (c :: acc)
    else none

def schemeSplit (s : String) : Option (String × String) :=
  schemeSplitAux s.data []

/-- The fields of Go's `url.URL` that the analyzer reads. -/
structure GoURL where
  scheme : String
  /-- models `URL.Opaque` (rootless path after a scheme) -/
  opq : String
  host : String
  path : String
  query : String
  fragment : String
deriving Repr, DecidableEq

/-- Split an authority's tail at the first `/`, keeping the `/` on the
path side, as `parse` does (`authority[:i], authority[i:]`). -/
def splitAuthorityPath : List Char → List Char × List Char
  | [] => ([], [])
  | c :: rest =>
    if c = '/' then ([], c :: rest)
    else
      let (a, p) := splitAuthorityPath rest
      (c :: a, p)

/-- Host validation, modelling `parseHost`'s port check for
non-bracketed hosts: everything after the last `:` must be digits. -/
def validHost (h : List Char) : Bool :=
  match splitFirstAux ':' h.reverse [] with
  | (_, none) => true
  | (portRev, some _) => portRev.all Char.isDigit

/-- Models `url.Parse` on the fragment-free part plus the outer
fragment split. `none` models a `net/url` parse error; the modelled
error cases are an ASCII control character anywhere in the URL and an
invalid (non-numeric) port in the authority. -/
def urlParse (rawURL : String) : Option GoURL :=
  if rawURL.data.any (fun c => c.toNat < 32 || c.toNat == 127) then none
  else
    let (u, frag) := splitFirst rawURL '#'
    let fragment := frag.getD ""
    let (scheme, rest) :=
      match schemeSplit u with
      | some (sc, r) => (⟨sc.data.map Char.toLower⟩, r)
      | none => ("", u)
    let (rest, q) := splitFirst rest '?'
    let query := q.getD ""
    if !hasPrefix rest "/" && scheme ≠ "" then
      -- rootless path after a scheme: opaque URL (e.g. mailto:)
      some { scheme := scheme, opq := rest, host := "", path := "",
             query := query, fragment := fragment }
    else if hasPrefix rest "//" && (scheme ≠ "" || !hasPrefix rest "///") then
      let (auth, pathChars) := splitAuthorityPath (rest.data.drop 2)
      let hostChars :=
        match splitFirstAux '@' auth.reverse [] with
        | (_, none) => auth
        | (hostRev, some _) => hostRev.reverse
      if validHost hostChars then
        some { scheme := scheme, opq := "", host := ⟨hostChars⟩,
               path := ⟨pathChars⟩, query := query, fragment := fragment }
      else none
    else
      some { scheme := scheme, opq := "", host := "", path := rest,
             query := query, fragment := fragment }

/-- Models `URL.IsAbs`: a URL is absolute iff it has a scheme. -/
def GoURL.isAbs (u : GoURL) : Bool :=
  u.scheme ≠ ""

/-- Models `URL.Hostname` / `splitHostPort`: the host with a valid
numeric port suffix (after the last `:`) removed. -/
def GoURL.hostname (u : GoURL) : String :=
  match splitFirstAux ':' u.host.data.reverse [] with
  | (_, none) => u.host
  | (portRev, some hostRev) =>
    if portRev.all Char.isDigit then ⟨hostRev.reverse⟩ else u.host

/-- Keep the part of `base` up to and including the last `/`
(`base[:strings.LastIndex(base, "/")+1]`; empty when no slash). -/
def keepThroughLastSlashRev : List Char → List Char
  | [] => []
  | c :: rest => if c = '/' then c :: rest else keepThroughLastSlashRev rest

def keepThroughLastSlash (s : String) : String :=
  ⟨(keepThroughLastSlashRev s.data.reverse).reverse⟩

/-- Dot-segment removal loop of `net/url`'s `resolvePath`: `.` dropped,
`..` pops, others appended (accumulator kept reversed). -/
def removeDotSegs : List String → List String → List String
  | [], dst => dst.reverse
  | "." :: rest, dst => removeDotSegs rest dst
  | ".." :: rest, dst => removeDotSegs rest (dst.drop 1)
  | e :: rest, dst => removeDotSegs rest (e :: dst)

/-- Models `net/url`'s `resolvePath base ref` (merge then remove dot
segments; result rooted at `/`). -/
def resolvePath (base ref : String) : String :=
  let full :=
    if ref = "" then base
    else if !hasPrefix ref "/" then keepThroughLastSlash base ++ ref
    else ref
  if full = "" then ""
  else
    let src := full.splitOn "/"
    let dst := removeDotSegs src []
    let dst := if src.getLast? = some "." || src.getLast? = some ".." then dst ++ [""] else dst
    let joined := String.intercalate "/" dst
    let joined := if hasPrefix joined "/" then ⟨joined.data.drop 1⟩ else joined
    "/" ++ joined

/-- Models `URL.ResolveReference` (userinfo and ForceQuery omitted, as
the analyzer never sets them). -/
def resolveReference (u ref : GoURL) : GoURL :=
  let url := if ref.scheme = "" then { ref with scheme := u.scheme } else ref
  if ref.scheme ≠ "" || ref.host ≠ "" then
    -- the "absoluteURI" or "net_path" cases
    { url with path := resolvePath ref.path "" }
  else if ref.opq ≠ "" then
    { url with host := "", path := "" }
  else
    let url :=
      if ref.path = "" && ref.query = "" then
        let url := { url with query := u.query }
        if ref.fragment = "" then { url with fragment := u.fragment } else url
      else url
    if ref.path = "" && u.opq ≠ "" then
      { url with opq := u.opq }
    else
      -- the "abs_path" or "rel_path" cases
      { url with host := u.host, path := resolvePath u.path ref.path }

/-- Models `URL.String` (no escaping; userinfo omitted). -/
def GoURL.urlString (u : GoURL) : String :=
  (if u.scheme ≠ "" then u.scheme ++ ":" else "") ++
  (if u.opq ≠ "" then u.opq
   else
     (if u.scheme ≠ "" || u.host ≠ "" then "//" ++ u.host else "") ++
     (if u.path ≠ "" && !hasPrefix u.path "/" && u.host ≠ "" then "/" else "") ++ u.path) ++
  (if u.query ≠ "" then "?" ++ u.query else "") ++
  (if u.fragment ≠ "" then "#" ++ u.fragment else "")

/-! ## The analyzer's data model -/

/-- `LinkResult` from the analyzer package (the spec's LinkOutcome).
Go's `error` value is modelled as `Option String`. -/
structure LinkResult where
  link : String
  isInternal : Bool
  isAccessible : Bool
  error : Option String
deriving Repr, DecidableEq

/-- The three counters written into `AnalysisResult` (the spec's
AggregateCounts).  Counters only ever start at zero and are
incremented, hence `Nat`. -/
structure AggregateCounts where
  internalLinks : Nat
  externalLinks : Nat
  inaccessibleLinks : Nat
deriving Repr, DecidableEq

/-! ## Engine variant: `src/analyzer/link_analysis.go` -/

/-- `processLinkParallel` (link_analysis.go lines 145–185): skip marker
for empty/fragment links, parse, resolve if relative, classify by
hostname; accessibility is hard-coded `true` (no probe in this
variant). -/
def processLinkParallel (link : String) (baseURL : GoURL) : LinkResult :=
  if link == "" || hasPrefix link "#" then
    { link := link, isInternal := false, isAccessible := false, error := none }
  else
    match urlParse link with
    | none =>
      { link := link, isInternal := false, isAccessible := false,
        error := some "url parse error" }
    | some parsed =>
      let linkURL := if !parsed.isAbs then resolveReference baseURL parsed else parsed
      let isInternal := linkURL.hostname == baseURL.hostname
      { link := link, isInternal := isInternal, isAccessible := true, error := none }

/-- One step of the result-collection loop of `analyzeLinksConcurrent`
(link_analysis.go lines 82–97): an outcome with `Error != nil` is
logged and skipped (`continue`); otherwise internal increments
`internalCount`, external increments `externalCount` and additionally
`inaccessibleCount` when not accessible. -/
def foldOutcome (c : AggregateCounts) (r : LinkResult) : AggregateCounts :=
  match r.error with
  | some _ => c
  | none =>
    if r.isInternal then
      { c with internalLinks := c.internalLinks + 1 }
    else
      { internalLinks := c.internalLinks,
        externalLinks := c.externalLinks + 1,
        inaccessibleLinks :=
          if !r.isAccessible then c.inaccessibleLinks + 1 else c.inaccessibleLinks }

/-- The collection loop folded over the sequence of received outcomes,
starting from the zeroed counters. -/
def collectResults (rs : List LinkResult) : AggregateCounts :=
  rs.foldl foldOutcome { internalLinks := 0, externalLinks := 0, inaccessibleLinks := 0 }

/-- The counts produced by the engine variant on a batch when every
link's outcome is received before the deadline (outcome order is
irrelevant, see `c10_fold_order_independent`). -/
def analyzeLinksCounts (links : List String) (baseURL : GoURL) : AggregateCounts :=
  collectResults (links.map (fun l => processLinkParallel l baseURL))

/-- `calculateOptimalWorkers` (link_analysis.go lines 188–207). -/
def calculateOptimalWorkers (linkCount : Nat) : Nat :=
  if linkCount ≤ 10 then 4
  else if linkCount ≤ 25 then 12
  else if linkCount ≤ 50 then 24
  else if linkCount ≤ 100 then 48
  else if linkCount ≤ 150 then 64
  else if linkCount ≤ 200 then 80
  else 100

/-- The batch deadline in seconds (link_analysis.go lines 60–66):
`time.Duration(len(links)/3) * time.Second` clamped to [30, 45].
Go's `/` on non-negative ints is Nat division. -/
def deadlineSeconds (numLinks : Nat) : Nat :=
  let t := numLinks / 3
  let t := if t < 30 then 30 else t
  if t > 45 then 45 else t

/-! ## `src/analyzer/link_utils.go` -/

/-- `LinkProcessor.IsSpecialProtocol` (link_utils.go lines 64–83). -/
def IsSpecialProtocol (link : String) : Bool :=
  ["javascript:", "mailto:", "tel:", "ftp:", "file:", "data:", "blob:",
   "chrome:", "moz-extension:"].any (fun protocol => hasPrefix link protocol)

/-- `LinkProcessor.ProcessLink` (link_utils.go lines 17–61): same skip,
parse, resolve and classification as `processLinkParallel`, but the
accessibility of an external link is obtained from the supplied
`isAccessibleChecker` applied to the resolved URL's string; internal
links are assumed accessible without calling the checker. -/
def ProcessLink (link : String) (baseURL : GoURL)
    (isAccessibleChecker : String → Bool) : LinkResult :=
  if link == "" || hasPrefix link "#" then
    { link := link, isInternal := false, isAccessible := false, error := none }
  else
    match urlParse link with
    | none =>
      { link := link, isInternal := false, isAccessible := false,
        error := some "url parse error" }
    | some parsed =>
      let linkURL := if !parsed.isAbs then resolveReference baseURL parsed else parsed
      let isInternal := linkURL.hostname == baseURL.hostname
      let isAccessible :=
        if !isInternal then isAccessibleChecker linkURL.urlString else true
      { link := link, isInternal := isInternal, isAccessible := isAccessible,
        error := none }

/-! ## The accessibility prober: `src/unnamed/part_003` lines 321–366 -/

/-- Possible outcomes of one HEAD probe attempt, abstracting the
network: `http.NewRequest` fails, `client.Do` fails (connection
refused, DNS failure, TLS failure, or timeout), or a response with a
status code arrives. -/
inductive HTTPOutcome where
  | buildError
  | transportError
  | response (status : Nat)
deriving Repr, DecidableEq

/-- `isLinkAccessible` (part_003 lines 321–366): skip special
protocols, build and issue a HEAD request, fold every failure to
`false`, and accept exactly `200 <= StatusCode < 400`.  The network's
behaviour for each URL is the explicit argument `net`. -/
def isLinkAccessible (net : String → HTTPOutcome) (link : String) : Bool :=
  if IsSpecialProtocol link then false
  else
    match net link with
    | HTTPOutcome.buildError => false
    | HTTPOutcome.transportError => false
    | HTTPOutcome.response status => decide (200 ≤ status) && decide (status < 400)

/-! ## Worker-pool variant: `src/analyzer/analyzer.go` -/

/-- `analyzeSingleLink` (analyzer.go lines 596–617): trims the href,
skips empty/fragment/javascript/mailto/tel links with a marker result,
parses, resolves unconditionally, classifies by `Host` (not
`Hostname`), and probes EVERY parsed link — internal ones included —
via `a.isLinkAccessible` (modelled by the argument `probe`). -/
def analyzeSingleLink (probe : String → Bool) (link : String) (baseURL : GoURL) :
    LinkResult :=
  let link := trimSpace link
  if link == "" || hasPrefix link "#" || hasPrefix link "javascript:" ||
     hasPrefix link "mailto:" || hasPrefix link "tel:" then
    { link := link, isInternal := false, isAccessible := false, error := none }
  else
    match urlParse link with
    | none =>
      { link := link, isInternal := false, isAccessible := false,
        error := some "url parse error" }
    | some parsedLink =>
      let resolvedLink := resolveReference baseURL parsedLink
      let isInternal := resolvedLink.host == baseURL.host
      let isAccessible := probe resolvedLink.urlString
      { link := link, isInternal := isInternal, isAccessible := isAccessible,
        error := none }

/-- One step of the result-collection loop of analyzer.go's
`analyzeLinksConcurrent` (lines 657–681): no error check; internal
increments `InternalLinks`, otherwise `ExternalLinks`; and
`InaccessibleLinks` is incremented for every outcome with
`IsAccessible == false`, internal or not. -/
def foldOutcomeAnalyzer (c : AggregateCounts) (r : LinkResult) : AggregateCounts :=
  let c :=
    if r.isInternal then { c with internalLinks := c.internalLinks + 1 }
    else { c with externalLinks := c.externalLinks + 1 }
  if !r.isAccessible then { c with inaccessibleLinks := c.inaccessibleLinks + 1 } else c

/-- analyzer.go's collection loop folded over received outcomes. -/
def collectResultsAnalyzer (rs : List LinkResult) : AggregateCounts :=
  rs.foldl foldOutcomeAnalyzer
    { internalLinks := 0, externalLinks := 0, inaccessibleLinks := 0 }

/-- The base URL `https://site.test` of the spec's end-to-end scenario,
as `url.Parse` produces it. -/
def siteBase : GoURL :=
  { scheme := "https", opq := "", host := "site.test", path := "",
    query := "", fragment := "" }

/-- The spec's end-to-end link batch. -/
def scenarioLinks : List String :=
  ["/a", "https://site.test/b", "https://other.test/c", "#frag", "mailto:x@y.com"]

/-- A concrete outcome shape reachable in the analyzer.go pipeline
(an internal link whose probe failed), used in concrete instances. -/
def internalInaccessibleOutcome : LinkResult :=
  { link := "x", isInternal := true, isAccessible := false, error := none }

/-! ## Helper lemmas: characterizing the collection folds as counts -/

/-- A non-error outcome counted as internal by the engine loop. -/
def countsInternal (r : LinkResult) : Bool :=
  r.error.isNone && r.isInternal

/-- A non-error outcome counted as external by the engine loop. -/
def countsExternal (r : LinkResult) : Bool :=
  r.error.isNone && !r.isInternal

/-- A non-error outcome counted as inaccessible by the engine loop. -/
def countsInaccessible (r : LinkResult) : Bool :=
  r.error.isNone && !r.isInternal && !r.isAccessible

theorem foldl_foldOutcome_eq (rs : List LinkResult) (c : AggregateCounts) :
    rs.foldl foldOutcome c =
      { internalLinks := c.internalLinks + rs.countP countsInternal,
        externalLinks := c.externalLinks + rs.countP countsExternal,
        inaccessibleLinks := c.inaccessibleLinks + rs.countP countsInaccessible } := by
  induction rs generalizing c with
  | nil => simp
  | cons r rs ih =>
    rw [List.foldl_cons, ih]
    rcases r with ⟨link, isInt, isAcc, err⟩
    cases err <;> cases isInt <;> cases isAcc <;>
      simp [foldOutcome, countsInternal, countsExternal, countsInaccessible,
        List.countP_cons] <;> omega

theorem foldl_foldOutcomeAnalyzer_eq (rs : List LinkResult) (c : AggregateCounts) :
    rs.foldl foldOutcomeAnalyzer c =
      { internalLinks := c.internalLinks + rs.countP (fun r => r.isInternal),
        externalLinks := c.externalLinks + rs.countP (fun r => !r.isInternal),
        inaccessibleLinks := c.inaccessibleLinks + rs.countP (fun r => !r.isAccessible) } := by
  induction rs generalizing c with
  | nil => simp
  | cons r rs ih =>
    rw [List.foldl_cons, ih]
    rcases r with ⟨link, isInt, isAcc, err⟩
    cases isInt <;> cases isAcc <;>
      simp [foldOutcomeAnalyzer, List.countP_cons] <;> omega

theorem countP_internal_add_external_le_length (rs : List LinkResult) :
    rs.countP countsInternal + rs.countP countsExternal ≤ rs.length := by
  induction rs with
  | nil => simp
  | cons r rs ih =>
    rcases r with ⟨link, isInt, isAcc, err⟩
    cases err <;> cases isInt <;>
      simp [List.countP_cons, countsInternal, countsExternal] <;> omega

theorem countP_isInternal_add_not (rs : List LinkResult) :
    rs.countP (fun r => r.isInternal) + rs.countP (fun r => !r.isInternal) = rs.length := by
  induction rs with
  | nil => simp
  | cons r rs ih =>
    rcases r with ⟨link, isInt, isAcc, err⟩
    cases isInt <;> simp [List.countP_cons] <;> omega

/-- The engine's per-link pipeline marks a link inaccessible (and
non-error) exactly when the href is empty or a bare fragment. -/
theorem countsInaccessible_processLinkParallel (l : String) (base : GoURL) :
    countsInaccessible (processLinkParallel l base) = (l == "" || hasPrefix l "#") := by
  unfold processLinkParallel
  split
  · simp_all [countsInaccessible]
  · cases hp : urlParse l <;> simp_all [countsInaccessible]

/-! ## Claim theorems -/

/-- C1: the spec's end-to-end scenario expects `internalLinks == 2`,
`externalLinks == 1`, `inaccessibleLinks == 0` on the batch
`["/a", "https://site.test/b", "https://other.test/c", "#frag",
"mailto:x@y.com"]` with base `https://site.test`.  The engine variant
(link_analysis.go) actually returns `internalLinks = 2`,
`externalLinks = 3`, `inaccessibleLinks = 1`: the `#frag` marker result
carries `Error = nil`, `IsInternal = false`, `IsAccessible = false` and
is therefore folded as an inaccessible external link, and
`mailto:x@y.com` parses as an opaque URL and is folded as an accessible
external link — neither is excluded from the totals.  (The probe plays
no role: this variant hard-codes `isAccessible = true` for every parsed
link.) -/
theorem c1_scenario_code_eval :
    analyzeLinksCounts scenarioLinks siteBase =
      { internalLinks := 2, externalLinks := 3, inaccessibleLinks := 1 } ∧
    analyzeLinksCounts scenarioLinks siteBase ≠
      { internalLinks := 2, externalLinks := 1, inaccessibleLinks := 0 } := by
  decide

/-- C2: the claim says empty, fragment-only, and special-protocol hrefs
contribute to none of the three counters.  In the engine variant the
empty href and `#top` are each counted as one external and one
inaccessible link, and the special-protocol hrefs `javascript:void(0)`
and `tel:+123456` are each counted as one accessible external link
(`processLinkParallel` never consults `IsSpecialProtocol`). -/
theorem c2_skip_code_eval :
    analyzeLinksCounts [""] siteBase =
      { internalLinks := 0, externalLinks := 1, inaccessibleLinks := 1 } ∧
    analyzeLinksCounts ["#top"] siteBase =
      { internalLinks := 0, externalLinks := 1, inaccessibleLinks := 1 } ∧
    analyzeLinksCounts ["javascript:void(0)"] siteBase =
      { internalLinks := 0, externalLinks := 1, inaccessibleLinks := 0 } ∧
    analyzeLinksCounts ["tel:+123456"] siteBase =
      { internalLinks := 0, externalLinks := 1, inaccessibleLinks := 0 } := by
  decide

/-- C3: in the engine variant no probe is performed
(`processLinkParallel` hard-codes accessibility), and after a
timeout-free run `InaccessibleLinks` equals exactly the number of input
hrefs that are empty or start with `#` — the only outcomes with
`IsAccessible = false` and no error. -/
theorem c3_inaccessible_count (links : List String) (base : GoURL) :
    (analyzeLinksCounts links base).inaccessibleLinks =
      links.countP (fun l => l == "" || hasPrefix l "#") := by
  unfold analyzeLinksCounts collectResults
  rw [foldl_foldOutcome_eq]
  have h : (countsInaccessible ∘ fun l => processLinkParallel l base) =
      (fun l => l == "" || hasPrefix l "#") :=
    funext fun l => countsInaccessible_processLinkParallel l base
  simp [List.countP_map, h]

/-- C5: the probe (`isLinkAccessible`, part_003 lines 321–366) is total
and fail-closed: a request-construction failure or any transport
failure (connection, DNS, TLS, timeout) yields `false`, and when a
response arrives (possible only for non-special-protocol links, the
only ones for which a request is issued) the verdict is `true` exactly
for statuses in `[200, 400)` — so 399 is accessible and 400 is not. -/
theorem c5_probe_fail_closed (net : String → HTTPOutcome) (link : String) :
    (net link = HTTPOutcome.buildError → isLinkAccessible net link = false) ∧
    (net link = HTTPOutcome.transportError → isLinkAccessible net link = false) ∧
    (∀ status, IsSpecialProtocol link = false → net link = HTTPOutcome.response status →
      (isLinkAccessible net link = true ↔ 200 ≤ status ∧ status < 400)) := by
  refine ⟨?_, ?_, ?_⟩
  · intro h
    unfold isLinkAccessible
    rw [h]
    split <;> rfl
  · intro h
    unfold isLinkAccessible
    rw [h]
    split <;> rfl
  · intro status hs h
    unfold isLinkAccessible
    rw [h, hs]
    simp

/-- C5 witness: with a network answering 399 the probe accepts, with
400 or a transport failure it rejects. -/
theorem c5_witness :
    isLinkAccessible (fun _ => HTTPOutcome.response 399) "https://ok.test/" = true ∧
    isLinkAccessible (fun _ => HTTPOutcome.response 400) "https://bad.test/" = false ∧
    isLinkAccessible (fun _ => HTTPOutcome.transportError) "https://down.test/" = false := by
  refine ⟨?_, ?_, ?_⟩
  · exact ((c5_probe_fail_closed (fun _ => HTTPOutcome.response 399)
      "https://ok.test/").2.2 399 (by decide) rfl).mpr (by decide)
  · have h := ((c5_probe_fail_closed (fun _ => HTTPOutcome.response 400)
      "https://bad.test/").2.2 400 (by decide) rfl)
    cases hb : isLinkAccessible (fun _ => HTTPOutcome.response 400) "https://bad.test/" with
    | false => rfl
    | true => exact absurd (h.mp hb) (by decide)
  · exact (c5_probe_fail_closed (fun _ => HTTPOutcome.transportError)
      "https://down.test/").2.1 rfl

/-- C6: `calculateOptimalWorkers` (link_analysis.go) matches the spec's
step table exactly, is monotonically non-decreasing, and always lies in
`[4, 100]`. -/
theorem c6_worker_count (m n : Nat) (h : m ≤ n) :
    (n ≤ 10 → calculateOptimalWorkers n = 4) ∧
    (10 < n → n ≤ 25 → calculateOptimalWorkers n = 12) ∧
    (25 < n → n ≤ 50 → calculateOptimalWorkers n = 24) ∧
    (50 < n → n ≤ 100 → calculateOptimalWorkers n = 48) ∧
    (100 < n → n ≤ 150 → calculateOptimalWorkers n = 64) ∧
    (150 < n → n ≤ 200 → calculateOptimalWorkers n = 80) ∧
    (200 < n → calculateOptimalWorkers n = 100) ∧
    calculateOptimalWorkers m ≤ calculateOptimalWorkers n ∧
    4 ≤ calculateOptimalWorkers n ∧ calculateOptimalWorkers n ≤ 100 := by
  unfold calculateOptimalWorkers
  split_ifs <;> omega

/-- C6 witness: the spec's sample points 10, 25, 50, 100, 150, 200, 500
(checked here at the instance m = 150, n = 500 of the theorem, plus
direct evaluations at the breakpoints). -/
theorem c6_witness :
    calculateOptimalWorkers 150 ≤ calculateOptimalWorkers 500 ∧
    4 ≤ calculateOptimalWorkers 500 ∧ calculateOptimalWorkers 500 ≤ 100 ∧
    calculateOptimalWorkers 500 = 100 ∧
    calculateOptimalWorkers 10 = 4 ∧ calculateOptimalWorkers 25 = 12 ∧
    calculateOptimalWorkers 50 = 24 ∧ calculateOptimalWorkers 100 = 48 ∧
    calculateOptimalWorkers 150 = 64 ∧ calculateOptimalWorkers 200 = 80 := by
  have h := c6_worker_count 150 500 (by decide)
  exact ⟨h.2.2.2.2.2.2.2.1, h.2.2.2.2.2.2.2.2.1, h.2.2.2.2.2.2.2.2.2,
    h.2.2.2.2.2.2.1 (by decide), by decide, by decide, by decide, by decide,
    by decide, by decide⟩

/-- C7: the batch deadline (link_analysis.go lines 60–66) equals
`clamp(n / 3 seconds, 30s, 45s)` with Go's integer division, lies in
`[30s, 45s]` for every `n`, and takes the values 30, 30, 45, 45 at
`n = 1, 90, 135, 1000`. -/
theorem c7_deadline_clamp (n : Nat) :
    (30 ≤ n / 3 → n / 3 ≤ 45 → deadlineSeconds n = n / 3) ∧
    (n / 3 < 30 → deadlineSeconds n = 30) ∧
    (45 < n / 3 → deadlineSeconds n = 45) ∧
    30 ≤ deadlineSeconds n ∧ deadlineSeconds n ≤ 45 ∧
    deadlineSeconds 1 = 30 ∧ deadlineSeconds 90 = 30 ∧
    deadlineSeconds 135 = 45 ∧ deadlineSeconds 1000 = 45 := by
  refine ⟨fun h1 h2 => ?_, fun h1 => ?_, fun h1 => ?_, ?_, ?_,
    by decide, by decide, by decide, by decide⟩ <;>
    (unfold deadlineSeconds; dsimp only; split_ifs <;> omega)

/-- C7 witness: instance n = 90 with the in-band hypotheses
discharged. -/
theorem c7_witness : deadlineSeconds 90 = 90 / 3 := by
  exact (c7_deadline_clamp 90).1 (by decide) (by decide)

/-- C9: an outcome whose error field is set changes none of the three
counters (the engine loop logs it and hits `continue`), and the fold
then keeps consuming the remaining outcomes. -/
theorem c9_error_outcome_skipped (c : AggregateCounts) (r : LinkResult)
    (rs : List LinkResult) (e : String) (h : r.error = some e) :
    foldOutcome c r = c ∧
    (r :: rs).foldl foldOutcome c = rs.foldl foldOutcome c := by
  have h1 : foldOutcome c r = c := by unfold foldOutcome; rw [h]
  exact ⟨h1, by rw [List.foldl_cons, h1]⟩

/-- C9 witness: a concrete errored outcome leaves concrete counters
untouched and the fold proceeds to the next outcome. -/
theorem c9_witness :
    foldOutcome { internalLinks := 1, externalLinks := 2, inaccessibleLinks := 1 }
      { link := "bad", isInternal := false, isAccessible := false, error := some "boom" } =
      { internalLinks := 1, externalLinks := 2, inaccessibleLinks := 1 } ∧
    ([{ link := "bad", isInternal := false, isAccessible := false, error := some "boom" },
      { link := "ok", isInternal := true, isAccessible := true, error := none }] :
        List LinkResult).foldl foldOutcome
      { internalLinks := 1, externalLinks := 2, inaccessibleLinks := 1 } =
    ([{ link := "ok", isInternal := true, isAccessible := true, error := none }] :
        List LinkResult).foldl foldOutcome
      { internalLinks := 1, externalLinks := 2, inaccessibleLinks := 1 } :=
  c9_error_outcome_skipped _ _ _ "boom" rfl

/-- C10: the engine's collection fold is order-independent — any
permutation of the same multiset of outcomes yields the same three
counters (and in particular replaying the same outcomes reproduces the
same counts). -/
theorem c10_fold_order_independent (rs rs₂ : List LinkResult) (h : rs.Perm rs₂) :
    collectResults rs = collectResults rs₂ := by
  unfold collectResults
  rw [foldl_foldOutcome_eq, foldl_foldOutcome_eq,
    h.countP_eq countsInternal, h.countP_eq countsExternal,
    h.countP_eq countsInaccessible]

/-- C10 witness: swapping two concrete outcomes leaves the counts
unchanged. -/
theorem c10_witness :
    collectResults [{ link := "a", isInternal := true, isAccessible := true, error := none },
      { link := "b", isInternal := false, isAccessible := false, error := none }] =
    collectResults [{ link := "b", isInternal := false, isAccessible := false, error := none },
      { link := "a", isInternal := true, isAccessible := true, error := none }] :=
  c10_fold_order_independent _ _ (List.Perm.swap _ _ _)

/-- C4 counterexample: in the analyzer.go worker (`analyzeSingleLink`)
an internal link IS probed — with a prober answering `false` the link
`https://site.test/p` (internal relative to `https://site.test`) gets
`isAccessible = false` (and with a prober answering `true` it gets
`true`, so the prober is consulted), and analyzer.go's collection step
then increments `inaccessibleLinks` for it. -/
theorem c4_counterexample :
    (analyzeSingleLink (fun _ => false) "https://site.test/p" siteBase).isInternal = true ∧
    (analyzeSingleLink (fun _ => false) "https://site.test/p" siteBase).isAccessible = false ∧
    (analyzeSingleLink (fun _ => true) "https://site.test/p" siteBase).isAccessible = true ∧
    (foldOutcomeAnalyzer { internalLinks := 0, externalLinks := 0, inaccessibleLinks := 0 }
      (analyzeSingleLink (fun _ => false) "https://site.test/p" siteBase)).inaccessibleLinks
      = 1 := by
  decide

/-- C4 (amended): in the `LinkProcessor.ProcessLink` worker
(link_utils.go) an internal link is never probed — its outcome has
`isAccessible = true` and is independent of the supplied checker — and
the engine's collection step never counts an internal outcome in
`inaccessibleLinks`.  (In the analyzer.go variant, by contrast, every
parsed link is probed and an inaccessible internal link does increment
`inaccessibleLinks`, see the counterexample.) -/
theorem c4_internal_not_probed (link : String) (base : GoURL)
    (checker checker₂ : String → Bool) (c : AggregateCounts) (r : LinkResult)
    (hInt : (ProcessLink link base checker).isInternal = true)
    (hr : r.isInternal = true) :
    (ProcessLink link base checker).isAccessible = true ∧
    ProcessLink link base checker = ProcessLink link base checker₂ ∧
    (foldOutcome c r).inaccessibleLinks = c.inaccessibleLinks := by
  have key : (ProcessLink link base checker).isAccessible = true ∧
      ProcessLink link base checker = ProcessLink link base checker₂ := by
    unfold ProcessLink at hInt ⊢
    split at hInt
    next hskip => simp at hInt
    next hskip =>
      rw [if_neg hskip, if_neg hskip]
      split at hInt
      next hp => simp at hInt
      next parsed hp =>
        dsimp only at hInt ⊢
        rw [hInt]
        simp
  refine ⟨key.1, key.2, ?_⟩
  unfold foldOutcome
  cases herr : r.error <;> simp [hr]

/-- C4 witness: concrete internal link `https://site.test/b`, two
different checkers, and a concrete internal outcome. -/
theorem c4_witness :
    (ProcessLink "https://site.test/b" siteBase (fun _ => false)).isAccessible = true ∧
    ProcessLink "https://site.test/b" siteBase (fun _ => false) =
      ProcessLink "https://site.test/b" siteBase (fun _ => true) ∧
    (foldOutcome { internalLinks := 0, externalLinks := 0, inaccessibleLinks := 3 }
      { link := "x", isInternal := true, isAccessible := true, error := none }).inaccessibleLinks
      = 3 :=
  c4_internal_not_probed "https://site.test/b" siteBase (fun _ => false) (fun _ => true)
    { internalLinks := 0, externalLinks := 0, inaccessibleLinks := 3 }
    { link := "x", isInternal := true, isAccessible := true, error := none }
    (by decide) rfl

/-- C8 counterexample: the claimed invariant
`inaccessibleLinks <= externalLinks` fails for analyzer.go's collection
loop — folding the single outcome that `analyzeSingleLink` (with a
prober answering `false`) produces for the internal link
`https://site.test/q` yields `inaccessibleLinks = 1` but
`externalLinks = 0`. -/
theorem c8_counterexample :
    (collectResultsAnalyzer
      [analyzeSingleLink (fun _ => false) "https://site.test/q" siteBase]).inaccessibleLinks = 1 ∧
    (collectResultsAnalyzer
      [analyzeSingleLink (fun _ => false) "https://site.test/q" siteBase]).externalLinks = 0 := by
  decide

/-- C8 (amended): for every outcome sequence no longer than the link
list (the collection loops receive at most one outcome per link), the
counters are non-negative (they live in ℕ by construction) and satisfy
`internalLinks + externalLinks <= len(links)` in both collection-loop
variants; `inaccessibleLinks <= externalLinks` holds for the engine
loop (link_analysis.go), while analyzer.go's loop — which also counts
inaccessible internal links — only guarantees
`inaccessibleLinks <= internalLinks + externalLinks`. -/
theorem c8_counts_invariants (links : List String) (rs : List LinkResult)
    (h : rs.length ≤ links.length) :
    (collectResults rs).internalLinks + (collectResults rs).externalLinks ≤ links.length ∧
    (collectResults rs).inaccessibleLinks ≤ (collectResults rs).externalLinks ∧
    (collectResultsAnalyzer rs).internalLinks + (collectResultsAnalyzer rs).externalLinks
      ≤ links.length ∧
    (collectResultsAnalyzer rs).inaccessibleLinks ≤
      (collectResultsAnalyzer rs).internalLinks + (collectResultsAnalyzer rs).externalLinks := by
  unfold collectResults collectResultsAnalyzer
  rw [foldl_foldOutcome_eq, foldl_foldOutcomeAnalyzer_eq]
  simp only [Nat.zero_add]
  refine ⟨?_, ?_, ?_, ?_⟩
  · exact le_trans (countP_internal_add_external_le_length rs) h
  · exact List.countP_mono_left (fun r _ hr => by
      simp only [countsInaccessible, countsExternal, Bool.and_eq_true] at hr ⊢
      exact ⟨hr.1.1, hr.1.2⟩)
  · rw [countP_isInternal_add_not]; exact h
  · rw [countP_isInternal_add_not]; exact List.countP_le_length _

/-- C8 witness: a concrete two-link batch with one received outcome. -/
theorem c8_witness :
    (collectResults [internalInaccessibleOutcome]).internalLinks +
      (collectResults [internalInaccessibleOutcome]).externalLinks
      ≤ (["u", "v"] : List String).length ∧
    (collectResults [internalInaccessibleOutcome]).inaccessibleLinks ≤
      (collectResults [internalInaccessibleOutcome]).externalLinks ∧
    (collectResultsAnalyzer [internalInaccessibleOutcome]).internalLinks +
      (collectResultsAnalyzer [internalInaccessibleOutcome]).externalLinks
      ≤ (["u", "v"] : List String).length ∧
    (collectResultsAnalyzer [internalInaccessibleOutcome]).inaccessibleLinks ≤
      (collectResultsAnalyzer [internalInaccessibleOutcome]).internalLinks +
      (collectResultsAnalyzer [internalInaccessibleOutcome]).externalLinks :=
  c8_counts_invariants ["u", "v"] [internalInaccessibleOutcome] (by decide)

end WebAnalyzer
